import Mathlib

/-!
Verification of the runner-dashboard core (discovery, status probing,
control actions, reconciliation worker) against its Rust source
(src/runner-dashboard/src/runner.rs and src/runner-dashboard/src/app.rs).

The Rust code is shallowly embedded: every external effect (subprocess
execution, filesystem queries, the home directory, the process table) is
supplied by an explicit environment record, and functions that issue
subprocesses additionally return the list of external calls they made, in
order.  The embedding follows the Linux branch of the code: on Linux
`cfg!(target_os = "macos")` is false, so `get_service_status`,
`refresh_runners` and `control_runner` take their `else` branches.
-/

/-- One external subprocess invocation: the program and its arguments.
The working directory set via `current_dir` does not affect which command
is issued and is not recorded. -/
structure ExtCall where
  program : String
  args : List String
deriving DecidableEq, Repr

/-- Result of a completed subprocess (`std::process::Output`): exit-status
success flag and the captured stdout/stderr text. -/
structure ProcessOutput where
  success : Bool
  stdout : String
  stderr : String
deriving DecidableEq, Repr

/-- `RunnerStatus` from runner.rs. -/
inductive RunnerStatus where
  | Active
  | Inactive
  | Failed
  | NotFound
deriving DecidableEq, Repr

/-- `Runner` from runner.rs; `PathBuf` is modelled as its string form. -/
structure Runner where
  name : String
  number : Nat
  repo : String
  status : RunnerStatus
  service_name : String
  path : String
deriving DecidableEq, Repr

/-- `Runner::display_name`. -/
def Runner.display_name (r : Runner) : String :=
  r.repo ++ "-runner-" ++ toString r.number

/-- Oracle for the external world consulted by the status prober:
outcomes of `systemctl cat` (unit-existence probe), `systemctl is-active`
(`none` models an `Err` from `Command::output`, `some s` the trimmed
stdout), the batched `pgrep -af Runner` call, the per-path four-pattern
`pgrep -f` liveness probe, and file existence. -/
structure ProbeEnv where
  unitExists : String → Bool
  isActiveRes : String → Option String
  pgrepAllOk : Bool
  pgrepAllLines : List String
  procRunning : String → Bool
  fileExists : String → Bool

/-- `DANGEROUS_CHARS` from runner.rs.  The backtick, quote and brace
characters are written via `Char.ofNat` (0x60 backtick, 0x27 single quote,
0x22 double quote, 0x7B and 0x7D braces). -/
def DANGEROUS_CHARS : List Char :=
  [';', '&', '|', Char.ofNat 0x60, '$', '\n', '\r', Char.ofNat 0x27,
   Char.ofNat 0x22, '(', ')', Char.ofNat 0x7B, Char.ofNat 0x7D, '<', '>',
   '*', '?', '[', ']', '!', '#']

/-- The first deny-listed shell metacharacter `validate_path` finds in the
path (iteration order is over `DANGEROUS_CHARS`, as in the Rust loop). -/
def validate_path_err (path : String) : Option Char :=
  DANGEROUS_CHARS.find? (fun c => path.data.contains c)

/-- `validate_path` from runner.rs as a Boolean: true means `Ok(())`. -/
def validate_path (path : String) : Bool :=
  (validate_path_err path).isNone

/-- Substring containment, modelling Rust `str::contains(&str)`. -/
def strContains (hay pat : String) : Bool :=
  let h := hay.toList
  let p := pat.toList
  (List.range (h.length + 1)).any (fun i => (h.drop i).take p.length == p)

/-- `is_runner_process_running` from runner.rs: a path failing
`validate_path` is reported not running without any probe; otherwise the
four-pattern `pgrep -f` probe outcome is supplied by the oracle. -/
def is_runner_process_running (env : ProbeEnv) (runner_path : String) : Bool :=
  if validate_path runner_path then env.procRunning runner_path else false

/-- `check_runner_status_fallback` from runner.rs (tier B, uncached). -/
def check_runner_status_fallback (env : ProbeEnv) (runner_path : String) : RunnerStatus :=
  if is_runner_process_running env runner_path then .Active
  else if env.fileExists (runner_path ++ "/.runner") then .Inactive
  else .NotFound

/-- `check_systemd_service_status` from runner.rs: `none` when the unit
does not exist, when `systemctl is-active` could not be run, or when its
output is not one of the three recognised states. -/
def check_systemd_service_status (env : ProbeEnv) (service_name : String) :
    Option RunnerStatus :=
  if env.unitExists service_name then
    match env.isActiveRes service_name with
    | some s =>
      if s = "active" then some .Active
      else if s = "inactive" then some .Inactive
      else if s = "failed" then some .Failed
      else none
    | none => none
  else none

/-- `get_linux_service_status` from runner.rs. -/
def get_linux_service_status (env : ProbeEnv) (service_name runner_path : String) :
    RunnerStatus :=
  match check_systemd_service_status env service_name with
  | some status => status
  | none => check_runner_status_fallback env runner_path

/-- `get_service_status` from runner.rs on Linux, where
`cfg!(target_os = "macos")` is false. -/
def get_service_status (env : ProbeEnv) (service_name runner_path : String) :
    RunnerStatus :=
  get_linux_service_status env service_name runner_path

/-- `check_runner_status_fallback_cached` from runner.rs (tier B, cached):
the process map defaults to false for an absent path
(`get(..).unwrap_or(&false)`). -/
def check_runner_status_fallback_cached (runner_path : String)
    (running_processes : String → Bool) (env : ProbeEnv) : RunnerStatus :=
  if running_processes runner_path then .Active
  else if env.fileExists (runner_path ++ "/.runner") then .Inactive
  else .NotFound

/-- `get_linux_service_status_cached` from runner.rs: a cached
`active`/`inactive`/`failed` entry returns immediately; any other cached
value, and a missing cache entry, fall through to the cached tier-B check. -/
def get_linux_service_status_cached (service_name runner_path : String)
    (systemctl_cache : String → Option String)
    (running_processes : String → Bool) (env : ProbeEnv) : RunnerStatus :=
  match systemctl_cache service_name with
  | some s =>
    if s = "active" then .Active
    else if s = "inactive" then .Inactive
    else if s = "failed" then .Failed
    else check_runner_status_fallback_cached runner_path running_processes env
  | none => check_runner_status_fallback_cached runner_path running_processes env

/-- `batch_check_running_processes` from runner.rs: one `pgrep -af Runner`
call; on success a path is marked running when some stdout line contains
it; on failure (or for a path not in the input list) the map reads false. -/
def batch_check_running_processes (env : ProbeEnv) (runner_paths : List String) :
    (String → Bool) × List ExtCall :=
  let call : ExtCall := ⟨"pgrep", ["-af", "Runner"]⟩
  if env.pgrepAllOk then
    ((fun p => runner_paths.contains p &&
       env.pgrepAllLines.any (fun line => strContains line p)), [call])
  else ((fun _ => false), [call])

/-- Loop body of `get_all_systemctl_services` for one service name: one
`systemctl cat` call; if the unit exists, one further `systemctl is-active`
call, whose successful output is inserted into the cache (a later insert of
the same key overwrites an earlier one, as with `HashMap::insert`). -/
def sysctl_step (env : ProbeEnv) (acc : (String → Option String) × List ExtCall)
    (name : String) : (String → Option String) × List ExtCall :=
  let tr := acc.2 ++ [⟨"systemctl", ["cat", name]⟩]
  if env.unitExists name then
    let tr2 := tr ++ [⟨"systemctl", ["is-active", name]⟩]
    match env.isActiveRes name with
    | some status => ((fun x => if x = name then some status else acc.1 x), tr2)
    | none => (acc.1, tr2)
  else (acc.1, tr)

/-- `get_all_systemctl_services` from runner.rs: iterates over all service
names, probing existence and then state for each. -/
def get_all_systemctl_services (env : ProbeEnv) (service_names : List String) :
    (String → Option String) × List ExtCall :=
  service_names.foldl (sysctl_step env) ((fun _ => none), [])

/-- `refresh_runners` from runner.rs (Linux branch): batch the process
check and the systemctl queries, then recompute every runner's status from
the cached data.  Returns the refreshed list and the external calls made. -/
def refresh_runners (env : ProbeEnv) (runners : List Runner) :
    List Runner × List ExtCall :=
  if runners.isEmpty then (runners, [])
  else
    let runner_paths := runners.map (fun r => r.path)
    let bc := batch_check_running_processes env runner_paths
    let service_names := runners.map (fun r => r.service_name)
    let gs := get_all_systemctl_services env service_names
    (runners.map (fun r =>
      { r with status :=
          get_linux_service_status_cached r.service_name r.path gs.1 bc.1 env }),
     bc.2 ++ gs.2)

/-! ### Shared concrete environments and runners for closed statements -/

/-- A probe environment in which every systemd unit exists and reports
`active`, the batched pgrep succeeds with empty output, no process is
running, and no file exists. -/
def probeEnvAllActive : ProbeEnv where
  unitExists := fun _ => true
  isActiveRes := fun _ => some "active"
  pgrepAllOk := true
  pgrepAllLines := []
  procRunning := fun _ => false
  fileExists := fun _ => false

/-- A probe environment in which nothing exists and nothing runs. -/
def probeEnvTrivial : ProbeEnv where
  unitExists := fun _ => false
  isActiveRes := fun _ => none
  pgrepAllOk := false
  pgrepAllLines := []
  procRunning := fun _ => false
  fileExists := fun _ => false

/-- A concrete runner in slot 1 of repoA. -/
def rr1 : Runner :=
  ⟨"runner-1", 1, "repoA", .NotFound, "actions.runner.u.repoA-runner-1",
   "home/u/action-runners/repoA/1"⟩

/-- A concrete runner in slot 2 of repoA. -/
def rr2 : Runner :=
  ⟨"runner-2", 2, "repoA", .NotFound, "actions.runner.u.repoA-runner-2",
   "home/u/action-runners/repoA/2"⟩

/-! ### C1: external-call count of a full refresh -/

theorem sysctl_step_trace_len (env : ProbeEnv)
    (acc : (String → Option String) × List ExtCall) (name : String) :
    (sysctl_step env acc name).2.length =
      acc.2.length + (if env.unitExists name then 2 else 1) := by
  unfold sysctl_step
  cases h : env.unitExists name with
  | false => simp [h]
  | true =>
    simp only [h, if_true]
    cases env.isActiveRes name <;> simp

theorem get_all_systemctl_trace_len_aux (env : ProbeEnv) :
    ∀ (names : List String) (acc : (String → Option String) × List ExtCall),
      ((names.foldl (sysctl_step env) acc).2).length =
        acc.2.length + names.length + names.countP env.unitExists := by
  intro names
  induction names with
  | nil => intro acc; simp
  | cons n rest ih =>
    intro acc
    simp only [List.foldl_cons, ih, sysctl_step_trace_len, List.countP_cons,
      List.length_cons]
    cases h : env.unitExists n <;> simp [h] <;> omega

theorem batch_check_trace (env : ProbeEnv) (ps : List String) :
    (batch_check_running_processes env ps).2 = [⟨"pgrep", ["-af", "Runner"]⟩] := by
  unfold batch_check_running_processes
  cases h : env.pgrepAllOk <;> simp [h]

/-- C1 (amended): a full `refresh_runners` over a non-empty list of N
runners issues exactly 1 + N + E external subprocess calls, where E is the
number of runner service names whose systemd unit exists (one batched
`pgrep`, one `systemctl cat` per runner, and one `systemctl is-active` per
existing unit); over an empty list it issues none.  The count grows
linearly with N rather than being bounded by a constant. -/
theorem c1_refresh_call_count (env : ProbeEnv) (runners : List Runner) :
    (refresh_runners env runners).2.length =
      if runners.isEmpty then 0
      else 1 + runners.length +
        (runners.map (fun r => r.service_name)).countP env.unitExists := by
  unfold refresh_runners
  cases hr : runners.isEmpty with
  | true => simp [hr]
  | false =>
    simp only [hr, Bool.false_eq_true, if_false]
    unfold get_all_systemctl_services
    simp only [List.length_append, batch_check_trace,
      get_all_systemctl_trace_len_aux, List.length_map, List.length_cons,
      List.length_nil]
    omega

/-- C1 (counterexample): in a world where every probed unit exists and is
active, refreshing one runner issues 3 external calls and refreshing two
runners issues 5 — more than the claimed two-or-three ceiling, and not a
constant independent of the number of runners. -/
theorem c1_counterexample :
    (refresh_runners probeEnvAllActive [rr1]).2.length = 3 ∧
    (refresh_runners probeEnvAllActive [rr1, rr2]).2.length = 5 ∧
    ¬ (refresh_runners probeEnvAllActive [rr1, rr2]).2.length ≤ 3 := by
  refine ⟨rfl, rfl, by decide⟩

/-! ### C7: strict precedence of the cached status resolution -/

/-- C7: tier-A positive cached results (`active`/`inactive`/`failed`)
always win; an unknown cached state or a missing cache entry (tier-A
existence miss) falls through to the cached tier-B check, which reports
Active for a path marked running in the batched process map, else Inactive
when the `.runner` marker file exists, else NotFound. -/
theorem c7_status_precedence (env : ProbeEnv) (cache : String → Option String)
    (running : String → Bool) (name path : String) :
    (cache name = some "active" →
      get_linux_service_status_cached name path cache running env = .Active)
    ∧ (cache name = some "inactive" →
      get_linux_service_status_cached name path cache running env = .Inactive)
    ∧ (cache name = some "failed" →
      get_linux_service_status_cached name path cache running env = .Failed)
    ∧ (∀ s, cache name = some s → s ≠ "active" → s ≠ "inactive" → s ≠ "failed" →
      get_linux_service_status_cached name path cache running env =
        check_runner_status_fallback_cached path running env)
    ∧ (cache name = none →
      get_linux_service_status_cached name path cache running env =
        check_runner_status_fallback_cached path running env)
    ∧ (check_runner_status_fallback_cached path running env =
        if running path then .Active
        else if env.fileExists (path ++ "/.runner") then .Inactive
        else .NotFound) := by
  unfold get_linux_service_status_cached check_runner_status_fallback_cached
  refine ⟨fun h => ?_, fun h => ?_, fun h => ?_, fun s h h1 h2 h3 => ?_,
    fun h => ?_, rfl⟩
  · simp [h]
  · simp [h]
  · simp [h]
  · simp [h, h1, h2, h3]
  · simp [h]

/-- Witness for C7 at a concrete input: a cache entry `active` yields
`Active` regardless of the tier-B signals. -/
theorem c7_status_precedence_witness :
    get_linux_service_status_cached "svc" "p" (fun _ => some "active")
      (fun _ => false) probeEnvTrivial = .Active :=
  (c7_status_precedence probeEnvTrivial (fun _ => some "active")
    (fun _ => false) "svc" "p").1 rfl

/-! ### C9: refresh mutates only the status field -/

/-- C9: `refresh_runners` preserves the length and order of the runner
list and every identity field (name, number, repo, service_name, path) of
every runner; only `status` may change. -/
theorem c9_refresh_frame (env : ProbeEnv) (runners : List Runner) :
    ((refresh_runners env runners).1).length = runners.length ∧
    ((refresh_runners env runners).1).map
        (fun r => (r.name, r.number, r.repo, r.service_name, r.path)) =
      runners.map (fun r => (r.name, r.number, r.repo, r.service_name, r.path)) := by
  unfold refresh_runners
  cases hr : runners.isEmpty with
  | true => simp [hr]
  | false =>
    refine ⟨by simp [hr], ?_⟩
    simp only [hr, Bool.false_eq_true, if_false, List.map_map]
    rfl

/-! ### Discovery (discover_runners / discover_repo_runners) -/

/-- Rust `str::parse::<u32>`: an optional leading plus sign, then at least
one decimal digit, value below 2^32; anything else is `none`. -/
def parse_u32 (s : String) : Option Nat :=
  let chars := s.toList
  let digits := match chars with
    | c :: rest => if c = '+' then rest else chars
    | [] => []
  if digits.isEmpty then none
  else if digits.all (fun c => c.isDigit) then
    let v := digits.foldl (fun acc c => acc * 10 + (c.toNat - 48)) 0
    if v < 4294967296 then some v else none
  else none

/-- Oracle for the effects discovery performs: the home directory
(`dirs::home_dir`), the `USER` environment variable (already defaulted to
`unknown` when absent), directory listings (`std::fs::read_dir`; an
`Except.error` models an I/O error when opening the directory or reading
any of its entries), directory-ness of a path, and the probe oracle used
by `get_service_status`. -/
structure DiscoverEnv where
  homeDir : Option String
  username : String
  readDir : String → Except String (List String)
  isDir : String → Bool
  probe : ProbeEnv


/-- Loop body of `discover_repo_runners` for one candidate slot directory:
skip entries that are not directories or lack the `run.sh` launch script;
otherwise parse the directory name as the slot number (unparsable gives 0
via `unwrap_or(0)`), compute the service name, probe the status with
`get_service_status`, and emit the Runner record. -/
def discover_slot (env : DiscoverEnv) (repo_path repo_name entry_name : String) :
    Option Runner :=
  if env.isDir (repo_path ++ "/" ++ entry_name) &&
      env.probe.fileExists ((repo_path ++ "/" ++ entry_name) ++ "/run.sh") then
    some { name := "runner-" ++ toString ((parse_u32 entry_name).getD 0)
           number := (parse_u32 entry_name).getD 0
           repo := repo_name
           status := get_service_status env.probe
             ("actions.runner." ++ env.username ++ "." ++ repo_name ++
               "-runner-" ++ toString ((parse_u32 entry_name).getD 0))
             (repo_path ++ "/" ++ entry_name)
           service_name := "actions.runner." ++ env.username ++ "." ++ repo_name ++
             "-runner-" ++ toString ((parse_u32 entry_name).getD 0)
           path := repo_path ++ "/" ++ entry_name }
  else none

/-- `discover_repo_runners` from runner.rs.  The Rust function pushes into
a caller-supplied vector; here it returns its own batch, which the caller
appends, giving the same list. -/
def discover_repo_runners (env : DiscoverEnv) (repo_path repo_name : String) :
    Except String (List Runner) :=
  match env.readDir repo_path with
  | .error e => .error e
  | .ok entries => .ok (entries.filterMap (discover_slot env repo_path repo_name))

/-- The repo loop of `discover_runners`: skip non-directories and entries
with an empty name, and propagate any error of `discover_repo_runners`. -/
def discover_fold (env : DiscoverEnv) (runners_dir : String) :
    List String → List Runner → Except String (List Runner)
  | [], acc => .ok acc
  | name :: rest, acc =>
    if env.isDir (runners_dir ++ "/" ++ name) then
      if name = "" then discover_fold env runners_dir rest acc
      else
        match discover_repo_runners env (runners_dir ++ "/" ++ name) name with
        | .error e => .error e
        | .ok more => discover_fold env runners_dir rest (acc ++ more)
    else discover_fold env runners_dir rest acc

/-- The comparator of the final `sort_by`: repo ascending, then number. -/
def runner_le (a b : Runner) : Bool :=
  if a.repo = b.repo then a.number ≤ b.number else a.repo < b.repo

/-- Insertion into a sorted list, keeping existing elements that compare
less-or-equal in front (stable, as `Vec::sort_by` is). -/
def insert_runner (r : Runner) : List Runner → List Runner
  | [] => [r]
  | x :: xs => if runner_le x r then x :: insert_runner r xs else r :: x :: xs

/-- Stable sort by `(repo, number)` ascending, modelling
`runners.sort_by(repo.cmp.then_with(number.cmp))`. -/
def sort_runners (rs : List Runner) : List Runner :=
  rs.foldl (fun acc r => insert_runner r acc) []

/-- `discover_runners` from runner.rs: resolve the home directory (failing
if there is none), treat a missing `action-runners` root as an empty
result, walk the repo directories, and sort. -/
def discover_runners (env : DiscoverEnv) : Except String (List Runner) :=
  match env.homeDir with
  | none => .error "Cannot find home directory"
  | some home =>
    if env.probe.fileExists (home ++ "/action-runners") then
      match env.readDir (home ++ "/action-runners") with
      | .error e => .error e
      | .ok entries =>
        match discover_fold env (home ++ "/action-runners") entries [] with
        | .error e => .error e
        | .ok rs => .ok (sort_runners rs)
    else .ok []

/-! ### C8: what makes discovery fail -/

theorem discover_repo_runners_error (env : DiscoverEnv) (p nm e : String)
    (h : discover_repo_runners env p nm = .error e) : env.readDir p = .error e := by
  unfold discover_repo_runners at h
  split at h
  · rename_i a hrd
    cases h
    exact hrd
  · cases h

theorem discover_fold_error (env : DiscoverEnv) (dir : String) :
    ∀ (entries : List String) (acc : List Runner) (e : String),
      discover_fold env dir entries acc = .error e →
      ∃ name, env.readDir (dir ++ "/" ++ name) = .error e := by
  intro entries
  induction entries with
  | nil => intro acc e h; cases h
  | cons n rest ih =>
    intro acc e h
    unfold discover_fold at h
    split at h
    · split at h
      · exact ih acc e h
      · split at h
        · rename_i hrr
          cases h
          exact ⟨n, discover_repo_runners_error env _ n _ hrr⟩
        · exact ih _ e h
    · exact ih acc e h

/-- C8 (amended): discovery fails exactly when the home directory cannot
be resolved, when the top-level listing of the root fails, or when the
listing of one of the repo subdirectories fails; a missing root directory
is not an error and yields the empty list. -/
theorem c8_discovery_error_sources (env : DiscoverEnv) :
    (env.homeDir = none → discover_runners env = .error "Cannot find home directory")
    ∧ (∀ home, env.homeDir = some home →
        env.probe.fileExists (home ++ "/action-runners") = false →
        discover_runners env = .ok [])
    ∧ (∀ e, discover_runners env = .error e →
        env.homeDir = none ∨
        ∃ home, env.homeDir = some home ∧
          (env.readDir (home ++ "/action-runners") = .error e ∨
           ∃ name, env.readDir ((home ++ "/action-runners") ++ "/" ++ name) = .error e)) := by
  refine ⟨fun h => ?_, fun home hh hfe => ?_, ?_⟩
  · unfold discover_runners
    rw [h]
  · unfold discover_runners
    simp [hh, hfe]
  · intro e h
    unfold discover_runners at h
    split at h
    · rename_i hh
      cases h
      exact Or.inl hh
    · rename_i home hh
      refine Or.inr ⟨home, hh, ?_⟩
      split at h
      · split at h
        · rename_i a hrd
          cases h
          exact Or.inl hrd
        · rename_i entries hrd
          split at h
          · rename_i a hdf
            cases h
            exact Or.inr (discover_fold_error env _ entries [] e hdf)
          · cases h
      · cases h

/-! ### C3: discovery probes status rather than emitting NotFound -/

/-- C3 (amended): every Runner record emitted by discovery carries the
status computed by `get_service_status` at discovery time, probing its own
service name and path against the environment; discovery does not
hard-code `NotFound`. -/
theorem c3_discovery_probes_status (env : DiscoverEnv) (repo_path repo_name : String)
    (rs : List Runner)
    (h : discover_repo_runners env repo_path repo_name = .ok rs) :
    ∀ r ∈ rs, r.status = get_service_status env.probe r.service_name r.path := by
  unfold discover_repo_runners at h
  split at h
  · cases h
  · rename_i entries hrd
    cases h
    intro r hr
    obtain ⟨a, _, hfa⟩ := List.mem_filterMap.mp hr
    unfold discover_slot at hfa
    split at hfa
    · cases hfa
      rfl
    · cases hfa

/-- A discovery environment whose single repo `repoA` holds one slot
directory `3` with a launch script, and whose systemd oracle reports that
slot's unit as existing and active. -/
def envC3 : DiscoverEnv where
  homeDir := some "home"
  username := "u"
  readDir := fun p =>
    if p = "home/action-runners" then .ok ["repoA"]
    else if p = "home/action-runners/repoA" then .ok ["3"]
    else .error "unused"
  isDir := fun _ => true
  probe :=
    { unitExists := fun _ => true
      isActiveRes := fun _ => some "active"
      pgrepAllOk := false
      pgrepAllLines := []
      procRunning := fun _ => false
      fileExists := fun p => p = "home/action-runners/repoA/3/run.sh" ||
        p = "home/action-runners" }

/-- The runner that discovery under `envC3` emits: its status is the probe
result `Active`, not `NotFound`. -/
def rC3 : Runner :=
  ⟨"runner-3", 3, "repoA", .Active, "actions.runner.u.repoA-runner-3",
   "home/action-runners/repoA/3"⟩

/-- C3 (counterexample): with an active systemd unit behind it, discovery
emits a Runner whose status is `Active`, not `NotFound` — discovery does
probe status (`discover_repo_runners` calls `get_service_status`). -/
theorem c3_counterexample :
    discover_repo_runners envC3 "home/action-runners/repoA" "repoA" = .ok [rC3] ∧
    rC3.status ≠ RunnerStatus.NotFound :=
  ⟨rfl, by decide⟩

/-- Witness for C3 (amended) at the concrete environment `envC3`. -/
theorem c3_discovery_probes_status_witness :
    rC3.status = get_service_status envC3.probe rC3.service_name rC3.path :=
  c3_discovery_probes_status envC3 "home/action-runners/repoA" "repoA" [rC3]
    rfl rC3 (by decide)

/-- Witness for C8 (amended): with no home directory, discovery fails with
the home-directory error. -/
theorem c8_discovery_error_sources_witness :
    discover_runners { envC3 with homeDir := none } = .error "Cannot find home directory" :=
  (c8_discovery_error_sources { envC3 with homeDir := none }).1 rfl

/-- A discovery environment whose root lists one repo directory whose own
listing fails with a permission error. -/
def envC8 : DiscoverEnv where
  homeDir := some "home"
  username := "u"
  readDir := fun p =>
    if p = "home/action-runners" then .ok ["repoA"] else .error "permission denied"
  isDir := fun _ => true
  probe := { probeEnvTrivial with fileExists := fun _ => true }

/-- C8 (counterexample): discovery fails with an I/O error raised while
listing a second-level repo directory, even though the home directory
resolved and the top-level traversal of the root succeeded — so the
claim's two causes are not the only ones. -/
theorem c8_counterexample :
    discover_runners envC8 = .error "permission denied" ∧
    envC8.homeDir = some "home" ∧
    envC8.readDir "home/action-runners" = .ok ["repoA"] :=
  ⟨rfl, rfl, rfl⟩

/-! ### C10: serviceName is not a unique identity -/

/-- A discovery environment with two slot directories `alpha` and `beta`
under `repoA`, both holding the launch script and neither parseable as an
unsigned integer. -/
def envC10 : DiscoverEnv where
  homeDir := some "home"
  username := "u"
  readDir := fun p =>
    if p = "home/action-runners" then .ok ["repoA"]
    else if p = "home/action-runners/repoA" then .ok ["alpha", "beta"]
    else .error "unused"
  isDir := fun _ => true
  probe := { probeEnvTrivial with fileExists := fun p =>
    p = "home/action-runners/repoA/alpha/run.sh" ||
    p = "home/action-runners/repoA/beta/run.sh" ||
    p = "home/action-runners" }

/-- First runner discovered under `envC10`. -/
def rrAlpha : Runner :=
  ⟨"runner-0", 0, "repoA", .NotFound, "actions.runner.u.repoA-runner-0",
   "home/action-runners/repoA/alpha"⟩

/-- Second runner discovered under `envC10`. -/
def rrBeta : Runner :=
  ⟨"runner-0", 0, "repoA", .NotFound, "actions.runner.u.repoA-runner-0",
   "home/action-runners/repoA/beta"⟩

/-- C10: two slot directories whose names fail `u32` parsing both default
to slot 0, so discovery returns two distinct Runner records (they differ
in path) with slot number 0 and identical serviceName. -/
theorem c10_duplicate_service_name :
    discover_runners envC10 = .ok [rrAlpha, rrBeta] ∧
    rrAlpha.service_name = rrBeta.service_name ∧
    rrAlpha.number = 0 ∧ rrBeta.number = 0 ∧ rrAlpha ≠ rrBeta :=
  ⟨rfl, rfl, rfl, rfl, by decide⟩

/-! ### Control actions (control_runner and the Linux fallback chain) -/

/-- Error values of the control chain.  Rust uses `anyhow::Error`
throughout; the two ways an error is constructed are kept apart:
`msg` is an error built from a message (`anyhow::anyhow!`), and `ioerr` is
a propagated `std::io::Error` (a spawn/launch failure), carrying its
`with_context` text when one was attached (`none` for a bare `?`); the
underlying OS error text is abstracted away. -/
inductive CtrlError where
  | msg (s : String)
  | ioerr (context : Option String)
deriving DecidableEq, Repr

/-- Events of tier-3 `restart_runner_process`: the `pkill` terminate
signal, the k-th liveness poll, and the `nohup` spawn attempt. -/
inductive CtrlEvent where
  | terminate
  | poll (k : Nat)
  | spawnProc
deriving DecidableEq, Repr

/-- Oracle for the external world consulted by the control chain:
`run` is the outcome of a blocking `Command::output` (`none` models an
`Err`, i.e. the subprocess could not be spawned), `spawnOk` whether a
detached `Command::spawn` succeeded, `fileExists` file existence (svc.sh),
and `runningAt k` the result of the k-th `is_runner_process_running`
liveness poll during a restart. -/
structure ControlEnv where
  run : ExtCall → Option ProcessOutput
  spawnOk : ExtCall → Bool
  fileExists : String → Bool
  runningAt : Nat → Bool

/-- Rust `char::is_alphanumeric` (Unicode `Alphabetic` or `Nd`/`Nl`/`No`).
The full Unicode tables are impractical to embed; this definition is exact
on the Basic Latin and Latin-1 Supplement blocks (U+0000..U+00FF), which
cover every character this development evaluates it on; higher code points
are mapped to false. -/
def rust_is_alphanumeric (c : Char) : Bool :=
  if c.toNat ≤ 0x7F then c.isAlphanum
  else if c.toNat ≤ 0x9F then false
  else if c.toNat ≤ 0xBF then
    [0xAA, 0xB2, 0xB3, 0xB5, 0xB9, 0xBA, 0xBC, 0xBD, 0xBE].contains c.toNat
  else if c.toNat ≤ 0xFF then decide (c.toNat ≠ 0xD7) && decide (c.toNat ≠ 0xF7)
  else false

/-- The service-name character validation of `control_runner`:
`is_alphanumeric` or one of `.`, `-`, `_` for every character. -/
def service_name_chars_ok (s : String) : Bool :=
  s.data.all (fun c => rust_is_alphanumeric c || c = '.' || c = '-' || c = '_')

/-- Rust `str::starts_with`, via the list of characters so that it
kernel-reduces. -/
def string_starts_with (s pre : String) : Bool :=
  pre.data.isPrefixOf s.data

/-- `ALLOWED_ACTIONS` from runner.rs. -/
def ALLOWED_ACTIONS : List String := ["start", "stop", "restart"]

/-- `handle_control_output` from runner.rs: exit success yields the
success message, non-zero exit yields a message error carrying the
captured stderr. -/
def handle_control_output (output : ProcessOutput) (action : String) (runner : Runner) :
    Except CtrlError (Option String) :=
  if output.success then
    .ok (some ("Successfully " ++ action ++ "ed " ++ runner.display_name))
  else
    .error (.msg ("Failed to " ++ action ++ " " ++ runner.display_name ++ ": " ++
      output.stderr))

/-- `systemctl_unit_exists` from runner.rs:
`output().map(success).unwrap_or(false)`, one `systemctl cat` call. -/
def systemctl_unit_exists (env : ControlEnv) (service_name : String) :
    Bool × List ExtCall :=
  (((env.run ⟨"systemctl", ["cat", service_name]⟩).map (fun o => o.success)).getD false,
   [⟨"systemctl", ["cat", service_name]⟩])

/-- `try_systemctl_control` from runner.rs: `none` result when the unit
does not exist; otherwise `sudo systemctl <action> <unit>` with its spawn
error propagated bare (`?`) and its output funnelled through
`handle_control_output`. -/
def try_systemctl_control (env : ControlEnv) (runner : Runner) (action : String) :
    Except CtrlError (Option String) × List ExtCall :=
  if (systemctl_unit_exists env runner.service_name).1 then
    match env.run ⟨"sudo", ["systemctl", action, runner.service_name]⟩ with
    | none => (.error (.ioerr none),
        (systemctl_unit_exists env runner.service_name).2 ++
          [⟨"sudo", ["systemctl", action, runner.service_name]⟩])
    | some output => (handle_control_output output action runner,
        (systemctl_unit_exists env runner.service_name).2 ++
          [⟨"sudo", ["systemctl", action, runner.service_name]⟩])
  else (.ok none, (systemctl_unit_exists env runner.service_name).2)

/-- `run_script` from runner.rs: the script invocation, with or without
sudo; the working directory does not change which command runs. -/
def run_script (env : ControlEnv) (script_path arg : String) (use_sudo : Bool) :
    Option ProcessOutput × List ExtCall :=
  if use_sudo then
    (env.run ⟨"sudo", [script_path, arg]⟩, [⟨"sudo", [script_path, arg]⟩])
  else (env.run ⟨script_path, [arg]⟩, [⟨script_path, [arg]⟩])

/-- `needs_service_installation` from runner.rs: a failed status run means
installation is needed (`Err(_) => Ok(true)`); otherwise look for
"not installed" in stdout or stderr. -/
def needs_service_installation (env : ControlEnv) (svc_script : String) (use_sudo : Bool) :
    Bool × List ExtCall :=
  match run_script env svc_script "status" use_sudo with
  | (some output, tr) =>
    (strContains output.stdout "not installed" ||
      strContains output.stderr "not installed", tr)
  | (none, tr) => (true, tr)

/-- `install_service` from runner.rs. -/
def install_service (env : ControlEnv) (svc_script : String) (runner : Runner)
    (use_sudo : Bool) : Except CtrlError Unit × List ExtCall :=
  match run_script env svc_script "install" use_sudo with
  | (none, tr) => (.error (.ioerr none), tr)
  | (some output, tr) =>
    if output.success then (.ok (), tr)
    else (.error (.msg ("Failed to install service for " ++ runner.display_name ++
      ": " ++ output.stderr)), tr)

/-- The tail of `try_svc_script_control`: run `svc.sh <action>` and funnel
the output through `handle_control_output`, prefixing the calls already
made. -/
def svc_run_step (env : ControlEnv) (runner : Runner) (action : String)
    (use_sudo : Bool) (tr0 : List ExtCall) :
    Except CtrlError (Option String) × List ExtCall :=
  match run_script env (runner.path ++ "/svc.sh") action use_sudo with
  | (none, tr) => (.error (.ioerr none), tr0 ++ tr)
  | (some output, tr) => (handle_control_output output action runner, tr0 ++ tr)

/-- `try_svc_script_control` from runner.rs: `none` result when svc.sh
does not exist; for `start`, first probe installation and install if
needed (failing the whole action if install fails); then run the action. -/
def try_svc_script_control (env : ControlEnv) (runner : Runner) (action : String)
    (use_sudo : Bool) : Except CtrlError (Option String) × List ExtCall :=
  if env.fileExists (runner.path ++ "/svc.sh") then
    if action = "start" then
      match needs_service_installation env (runner.path ++ "/svc.sh") use_sudo with
      | (needs, tr1) =>
        if needs then
          match install_service env (runner.path ++ "/svc.sh") runner use_sudo with
          | (.error e, tr2) => (.error e, tr1 ++ tr2)
          | (.ok _, tr2) => svc_run_step env runner action use_sudo (tr1 ++ tr2)
        else svc_run_step env runner action use_sudo tr1
    else svc_run_step env runner action use_sudo []
  else (.ok none, [])

/-- `stop_runner_process` from runner.rs: validate the path, then one
`pkill` whose spawn failure is surfaced with context but whose exit
status is ignored (`output()` followed by `Ok(())`). -/
def stop_runner_process (env : ControlEnv) (runner : Runner) :
    Except CtrlError Unit × List ExtCall :=
  match validate_path_err runner.path with
  | some c =>
    (.error (.msg ("Invalid path: contains shell metacharacter " ++ c.toString)), [])
  | none =>
    match env.run ⟨"pkill", ["-f", "Runner.*" ++ runner.path]⟩ with
    | none => (.error (.ioerr (some ("Failed to stop runner " ++ runner.display_name))),
        [⟨"pkill", ["-f", "Runner.*" ++ runner.path]⟩])
    | some _ => (.ok (), [⟨"pkill", ["-f", "Runner.*" ++ runner.path]⟩])

/-- The polling loop of `restart_runner_process`.  Iteration `k` first
polls liveness; a dead process exits the loop, a live one checks
`start.elapsed() > 5s` and fails on timeout, else sleeps 100 ms and
retries.  Time is idealised as exactly 100·k ms elapsed at iteration `k`
(one 100 ms sleep per completed iteration), so the timeout check
`100·k > 5000` first fires at k = 51.  Returns the poll events made and
`some k` for exit observed at poll `k`, `none` for timeout. -/
def restart_polls (runningAt : Nat → Bool) (k : Nat) : List CtrlEvent × Option Nat :=
  if runningAt k then
    if h : 100 * k > 5000 then ([.poll k], none)
    else
      (.poll k :: (restart_polls runningAt (k + 1)).1, (restart_polls runningAt (k + 1)).2)
  else ([.poll k], some k)
termination_by 51 - k
decreasing_by omega

/-- The timeout error message of `restart_runner_process`. -/
def restart_timeout_message (r : Runner) : String :=
  "Timeout waiting for runner " ++ r.display_name ++ " to stop"

/-- `restart_runner_process` from runner.rs: validate the path, issue the
`pkill` terminate signal (result and even spawn failure ignored via
`let _ =`), poll for exit up to the 5-second ceiling, and only then spawn
the launch script detached, surfacing a spawn failure with context. -/
def restart_runner_process (env : ControlEnv) (runner : Runner) (run_script_str : String) :
    Except CtrlError Unit × List CtrlEvent :=
  match validate_path_err runner.path with
  | some c =>
    (.error (.msg ("Invalid path: contains shell metacharacter " ++ c.toString)), [])
  | none =>
    if (restart_polls env.runningAt 0).2.isNone then
      (.error (.msg (restart_timeout_message runner)),
       .terminate :: (restart_polls env.runningAt 0).1)
    else if env.spawnOk ⟨"nohup", [run_script_str]⟩ then
      (.ok (), .terminate :: (restart_polls env.runningAt 0).1 ++ [.spawnProc])
    else
      (.error (.ioerr (some ("Failed to restart runner " ++ runner.display_name))),
       .terminate :: (restart_polls env.runningAt 0).1 ++ [.spawnProc])

/-- Rendering of restart events as external calls for the unified control
trace.  One liveness poll issues up to four `pgrep -f` pattern probes in
the Rust code; it is recorded as a single representative call here. -/
def ctrlEventCall (path script : String) : CtrlEvent → ExtCall
  | .terminate => ⟨"pkill", ["-f", "Runner.*" ++ path]⟩
  | .poll k => ⟨"pgrep", ["-f", path, toString k]⟩
  | .spawnProc => ⟨"nohup", [script]⟩

/-- `control_runner_direct` from runner.rs: validate the path, then
dispatch on the action; `start` spawns `run.sh` detached, `stop` delegates
to `stop_runner_process`, `restart` to `restart_runner_process`. -/
def control_runner_direct (env : ControlEnv) (runner : Runner) (action : String) :
    Except CtrlError String × List ExtCall :=
  match validate_path_err runner.path with
  | some c =>
    (.error (.msg ("Invalid path: contains shell metacharacter " ++ c.toString)), [])
  | none =>
    if action = "start" then
      if env.spawnOk ⟨"nohup", [runner.path ++ "/run.sh"]⟩ then
        (.ok ("Started " ++ runner.display_name), [⟨"nohup", [runner.path ++ "/run.sh"]⟩])
      else
        (.error (.ioerr (some ("Failed to start runner " ++ runner.display_name))),
         [⟨"nohup", [runner.path ++ "/run.sh"]⟩])
    else if action = "stop" then
      match stop_runner_process env runner with
      | (.error e, tr) => (.error e, tr)
      | (.ok _, tr) => (.ok ("Stopped " ++ runner.display_name), tr)
    else if action = "restart" then
      match restart_runner_process env runner (runner.path ++ "/run.sh") with
      | (.error e, tr) =>
        (.error e, tr.map (ctrlEventCall runner.path (runner.path ++ "/run.sh")))
      | (.ok _, tr) =>
        (.ok ("Restarted " ++ runner.display_name),
         tr.map (ctrlEventCall runner.path (runner.path ++ "/run.sh")))
    else (.error (.msg ("Invalid action: " ++ action)), [])

/-- `control_runner_linux` from runner.rs: systemctl tier, then svc.sh
tier, then direct control; each earlier tier's error is final. -/
def control_runner_linux (env : ControlEnv) (runner : Runner) (action : String) :
    Except CtrlError String × List ExtCall :=
  match try_systemctl_control env runner action with
  | (.error e, tr) => (.error e, tr)
  | (.ok (some result), tr) => (.ok result, tr)
  | (.ok none, tr) =>
    match try_svc_script_control env runner action true with
    | (.error e, tr2) => (.error e, tr ++ tr2)
    | (.ok (some result), tr2) => (.ok result, tr ++ tr2)
    | (.ok none, tr2) =>
      match control_runner_direct env runner action with
      | (res, tr3) => (res, tr ++ tr2 ++ tr3)

/-- `control_runner` from runner.rs (Linux branch): the validation gate —
allowed action literal, service-name character class, fixed namespace
prefix — runs before any subprocess; only then is the tiered chain
entered.  (The error message text drops the Rust quotation marks around
`actions.runner.`.) -/
def control_runner (env : ControlEnv) (runner : Runner) (action : String) :
    Except CtrlError String × List ExtCall :=
  if ALLOWED_ACTIONS.contains action = false then
    (.error (.msg ("Invalid action: " ++ action)), [])
  else if service_name_chars_ok runner.service_name = false then
    (.error (.msg "Invalid service name format"), [])
  else if string_starts_with runner.service_name "actions.runner." = false then
    (.error (.msg "Service name must start with actions.runner."), [])
  else control_runner_linux env runner action

/-! ### Reconciliation worker (app.rs) -/

/-- `WorkerResponse` from app.rs. -/
inductive WorkerResponse where
  | RunnersUpdated (rs : List Runner)
  | ActionComplete (message : String)
deriving DecidableEq, Repr

/-- The `Display` text of a control error as formatted by
`format!("Error: {}", e)`: `anyhow` prints the message, or the outermost
context of a wrapped I/O error; the OS-dependent text of a bare I/O error
is abstracted as "io error". -/
def CtrlError.message : CtrlError → String
  | .msg s => s
  | .ioerr (some c) => c
  | .ioerr none => "io error"

/-- The completion message computed by the `ControlRunner` arm of
`worker_thread` in app.rs: bounds-check via `runners.get(runner_index)`,
run `control_runner` on a hit, or format the out-of-bounds error. -/
def worker_control_message (cenv : ControlEnv) (runners : List Runner)
    (runner_index : Nat) (action : String) : String :=
  match runners.get? runner_index with
  | some runner =>
    match (control_runner cenv runner action).1 with
    | .ok m => m
    | .error e => "Error: " ++ e.message
  | none =>
    "Error: Runner index " ++ toString runner_index ++ " out of bounds (have " ++
      toString runners.length ++ " runners)"

/-- The `ControlRunner` arm of `worker_thread` in app.rs: compute the
outcome message (control action or bounds error), then unconditionally
refresh all runners, then send `RunnersUpdated` followed by
`ActionComplete`.  Returns the worker's new runner list and the responses
sent, in order. -/
def worker_handle_control (cenv : ControlEnv) (penv : ProbeEnv) (runners : List Runner)
    (runner_index : Nat) (action : String) : List Runner × List WorkerResponse :=
  ((refresh_runners penv runners).1,
   [.RunnersUpdated (refresh_runners penv runners).1,
    .ActionComplete (worker_control_message cenv runners runner_index action)])

/-! ### Concrete control environments for closed statements -/

/-- A control environment in which no subprocess can be spawned, nothing
exists, and no process runs. -/
def ctrlEnvTrivial : ControlEnv where
  run := fun _ => none
  spawnOk := fun _ => false
  fileExists := fun _ => false
  runningAt := fun _ => false

/-- A control environment in which every blocking subprocess succeeds with
empty output. -/
def ctrlEnvAllOk : ControlEnv where
  run := fun _ => some ⟨true, "", ""⟩
  spawnOk := fun _ => true
  fileExists := fun _ => false
  runningAt := fun _ => false

/-- A control environment in which `pkill` runs but exits non-zero, and
nothing else is available. -/
def ctrlEnvStopFails : ControlEnv where
  run := fun c =>
    if c.program = "pkill" then some ⟨false, "", "pkill: no process matched"⟩ else none
  spawnOk := fun _ => true
  fileExists := fun _ => false
  runningAt := fun _ => false

/-- A control environment whose liveness poll always reports the process
as still running. -/
def ctrlEnvAlwaysRunning : ControlEnv where
  run := fun _ => some ⟨true, "", ""⟩
  spawnOk := fun _ => true
  fileExists := fun _ => false
  runningAt := fun _ => true

/-- The character class `[A-Za-z0-9._-]` as the claim words it, for
comparison with the source's `service_name_chars_ok` (which uses Unicode
`is_alphanumeric`).  `Char.isAlphanum` is exactly ASCII `A-Za-z0-9`. -/
def claimed_ascii_service_chars_ok (s : String) : Bool :=
  s.data.all (fun c => c.isAlphanum || c = '.' || c = '-' || c = '_')

/-- A runner whose service name carries the required prefix but contains
the non-ASCII Unicode letter `é` (U+00E9). -/
def rEacute : Runner :=
  ⟨"runner-0", 0, "repoX", .NotFound, "actions.runner.é", "home/u/ar/repoX/0"⟩

/-! ### C5: the validation gate of control_runner -/

/-- C5 (amended): an action outside `{start, stop, restart}` fails with
the invalid-action error and spawns no subprocess; a service name
containing a character that is neither Unicode-alphanumeric (the code uses
`char::is_alphanumeric`, not ASCII `[A-Za-z0-9]`) nor `.`, `-`, `_` fails
with the format error and spawns no subprocess; a well-formed name lacking
the `actions.runner.` prefix fails with the prefix error and spawns no
subprocess; the checks run in that order, before any subprocess. -/
theorem c5_validation_gate (env : ControlEnv) (runner : Runner) (action : String) :
    (ALLOWED_ACTIONS.contains action = false →
      control_runner env runner action = (.error (.msg ("Invalid action: " ++ action)), []))
    ∧ (ALLOWED_ACTIONS.contains action = true →
        service_name_chars_ok runner.service_name = false →
        control_runner env runner action = (.error (.msg "Invalid service name format"), []))
    ∧ (ALLOWED_ACTIONS.contains action = true →
        service_name_chars_ok runner.service_name = true →
        string_starts_with runner.service_name "actions.runner." = false →
        control_runner env runner action =
          (.error (.msg "Service name must start with actions.runner."), [])) := by
  refine ⟨fun h => ?_, fun h1 h2 => ?_, fun h1 h2 h3 => ?_⟩
  · unfold control_runner
    rw [if_pos h]
  · unfold control_runner
    rw [if_neg (by rw [h1]; decide), if_pos h2]
  · unfold control_runner
    rw [if_neg (by rw [h1]; decide), if_neg (by rw [h2]; decide), if_pos h3]

/-- Witness for C5 (amended): action `delete` is rejected with no calls. -/
theorem c5_validation_gate_witness :
    control_runner ctrlEnvTrivial rr1 "delete" =
      (.error (.msg ("Invalid action: " ++ "delete")), []) :=
  (c5_validation_gate ctrlEnvTrivial rr1 "delete").1 rfl

/-- C5 (counterexample): the service name `actions.runner.é` contains a
character outside `[A-Za-z0-9._-]`, yet `control_runner` does not return a
validation error — `é` is Unicode-alphanumeric, so validation passes and
two subprocesses are spawned. -/
theorem c5_counterexample :
    claimed_ascii_service_chars_ok rEacute.service_name = false ∧
    service_name_chars_ok rEacute.service_name = true ∧
    control_runner ctrlEnvAllOk rEacute "stop" =
      (.ok ("Successfully stoped " ++ rEacute.display_name),
       [⟨"systemctl", ["cat", rEacute.service_name]⟩,
        ⟨"sudo", ["systemctl", "stop", rEacute.service_name]⟩]) ∧
    (control_runner ctrlEnvAllOk rEacute "stop").2 ≠ [] :=
  ⟨rfl, rfl, rfl, by decide⟩

/-! ### C4: how subprocess failures surface in the control chain -/

/-- C4 (amended): in tiers 1 and 2 every non-zero exit surfaces through
`handle_control_output` as a message error carrying the captured stderr,
and a spawn failure as the distinct I/O-backed variant (the two are
different constructors); but in tier 3 `stop` ignores the terminate
command's exit status — whenever `pkill` could be spawned at all, the stop
succeeds regardless of its exit code. -/
theorem c4_error_surfacing (env : ControlEnv) (runner : Runner) (action : String)
    (output : ProcessOutput) :
    (output.success = false →
      handle_control_output output action runner =
        .error (.msg ("Failed to " ++ action ++ " " ++ runner.display_name ++ ": " ++
          output.stderr)))
    ∧ ((systemctl_unit_exists env runner.service_name).1 = true →
        env.run ⟨"sudo", ["systemctl", action, runner.service_name]⟩ = none →
        (try_systemctl_control env runner action).1 = .error (.ioerr none))
    ∧ (∀ s ctx, CtrlError.msg s ≠ CtrlError.ioerr ctx)
    ∧ (env.fileExists (runner.path ++ "/svc.sh") = true → action ≠ "start" →
        env.run ⟨"sudo", [runner.path ++ "/svc.sh", action]⟩ = none →
        (try_svc_script_control env runner action true).1 = .error (.ioerr none))
    ∧ (validate_path runner.path = true →
        ∀ out, env.run ⟨"pkill", ["-f", "Runner.*" ++ runner.path]⟩ = some out →
        (stop_runner_process env runner).1 = .ok ()) := by
  refine ⟨fun h => ?_, fun hex hrun => ?_, fun s ctx h => CtrlError.noConfusion h,
    fun hfe hact hrun => ?_, fun hv out hout => ?_⟩
  · unfold handle_control_output
    rw [if_neg (by rw [h]; decide)]
  · unfold try_systemctl_control
    rw [if_pos hex, hrun]
  · unfold try_svc_script_control
    rw [if_pos hfe, if_neg hact]
    unfold svc_run_step run_script
    rw [if_pos rfl, hrun]
  · unfold stop_runner_process
    have hne : validate_path_err runner.path = none := by
      unfold validate_path at hv
      exact Option.isNone_iff_eq_none.mp hv
    rw [hne, hout]

/-- Witness for C4 (amended): a concrete failing output surfaces with its
stderr in the message. -/
theorem c4_error_surfacing_witness :
    handle_control_output ⟨false, "", "boom"⟩ "stop" rr1 =
      .error (.msg ("Failed to " ++ "stop" ++ " " ++ rr1.display_name ++ ": " ++ "boom")) :=
  (c4_error_surfacing ctrlEnvTrivial rr1 "stop" ⟨false, "", "boom"⟩).1 rfl

/-- C4 (counterexample): in tier 3, `pkill` runs and exits non-zero, yet
`stop_runner_process` returns success and the whole control chain reports
the runner stopped — the non-zero exit is not surfaced as a ControlError. -/
theorem c4_counterexample :
    ctrlEnvStopFails.run ⟨"pkill", ["-f", "Runner.*" ++ rr1.path]⟩ =
      some ⟨false, "", "pkill: no process matched"⟩ ∧
    stop_runner_process ctrlEnvStopFails rr1 =
      (.ok (), [⟨"pkill", ["-f", "Runner.*" ++ rr1.path]⟩]) ∧
    (control_runner ctrlEnvStopFails rr1 "stop").1 =
      .ok ("Stopped " ++ rr1.display_name) :=
  ⟨rfl, rfl, rfl⟩

/-! ### C2: the worker's Control message handling -/

/-- C2: for every `Control(index, action)` message, the worker's new list
is always the freshly re-probed one (regardless of the action's outcome or
an out-of-range index), the responses are exactly `RunnersUpdated` of that
refreshed list followed by `ActionComplete` — in that order — and an
out-of-range index yields the descriptive bounds error message. -/
theorem c2_worker_control (cenv : ControlEnv) (penv : ProbeEnv) (runners : List Runner)
    (idx : Nat) (action : String) :
    ((worker_handle_control cenv penv runners idx action).1 =
        (refresh_runners penv runners).1)
    ∧ ((worker_handle_control cenv penv runners idx action).2 =
        [.RunnersUpdated ((worker_handle_control cenv penv runners idx action).1),
         .ActionComplete (worker_control_message cenv runners idx action)])
    ∧ (runners.length ≤ idx →
        worker_control_message cenv runners idx action =
          "Error: Runner index " ++ toString idx ++ " out of bounds (have " ++
            toString runners.length ++ " runners)") := by
  refine ⟨rfl, rfl, fun h => ?_⟩
  unfold worker_control_message
  rw [List.get?_eq_none.mpr h]

/-- Witness for C2 at a concrete out-of-range input. -/
theorem c2_worker_control_witness :
    worker_control_message ctrlEnvTrivial [] 0 "stop" =
      "Error: Runner index " ++ toString 0 ++ " out of bounds (have " ++
        toString (List.length ([] : List Runner)) ++ " runners)" :=
  (c2_worker_control ctrlEnvTrivial probeEnvTrivial [] 0 "stop").2.2 (by decide)

/-! ### C6: tier-3 restart ordering, polling and timeout -/

theorem str_data_append (s t : String) : (s ++ t).data = s.data ++ t.data := by
  cases s
  cases t
  rfl

theorem string_ne_of_head (a b : String) (c d : Char) (ha : a.data.head? = some c)
    (hb : b.data.head? = some d) (hcd : c ≠ d) : a ≠ b := by
  intro h
  rw [h, hb] at ha
  cases ha
  exact hcd rfl

theorem restart_timeout_message_head (r : Runner) :
    (restart_timeout_message r).data.head? = some 'T' := by
  unfold restart_timeout_message
  rw [str_data_append, str_data_append]
  rfl

theorem failed_message_head (action dn stderr : String) :
    ("Failed to " ++ action ++ " " ++ dn ++ ": " ++ stderr).data.head? = some 'F' := by
  simp only [str_data_append]
  rfl

theorem restart_polls_facts (f : Nat → Bool) :
    ∀ (n k : Nat), 51 - k ≤ n →
      (CtrlEvent.spawnProc ∉ (restart_polls f k).1)
      ∧ (∀ j, (restart_polls f k).2 = some j →
          f j = false ∧ CtrlEvent.poll j ∈ (restart_polls f k).1)
      ∧ ((∀ j, f j = true) → (restart_polls f k).2 = none) := by
  intro n
  induction n with
  | zero =>
    intro k hk
    by_cases hf : f k = true
    · rw [restart_polls, if_pos hf, dif_pos (by omega : 100 * k > 5000)]
      refine ⟨by simp, fun j hj => by simp at hj, fun _ => rfl⟩
    · rw [restart_polls, if_neg hf]
      rw [Bool.not_eq_true] at hf
      refine ⟨by simp, fun j hj => ?_, fun hall => absurd (hall k) (by simp [hf])⟩
      simp only at hj
      cases hj
      exact ⟨hf, by simp⟩
  | succ n ih =>
    intro k hk
    by_cases hf : f k = true
    · by_cases ht : 100 * k > 5000
      · rw [restart_polls, if_pos hf, dif_pos ht]
        refine ⟨by simp, fun j hj => by simp at hj, fun _ => rfl⟩
      · rw [restart_polls, if_pos hf, dif_neg ht]
        obtain ⟨ih1, ih2, ih3⟩ := ih (k + 1) (by omega)
        refine ⟨?_, fun j hj => ?_, fun hall => ih3 hall⟩
        · intro hmem
          rcases List.mem_cons.mp hmem with h | h
          · exact absurd h (by simp)
          · exact ih1 h
        · exact ⟨(ih2 j hj).1, List.mem_cons_of_mem _ (ih2 j hj).2⟩
    · rw [restart_polls, if_neg hf]
      rw [Bool.not_eq_true] at hf
      refine ⟨by simp, fun j hj => ?_, fun hall => absurd (hall k) (by simp [hf])⟩
      simp only at hj
      cases hj
      exact ⟨hf, by simp⟩

theorem restart_trace_head (env : ControlEnv) (runner : Runner) (script : String) :
    CtrlEvent.spawnProc ∈ (restart_runner_process env runner script).2 →
    (restart_runner_process env runner script).2.head? = some CtrlEvent.terminate := by
  unfold restart_runner_process
  split
  · intro hmem
    simp at hmem
  · split
    · intro _; rfl
    · split
      · intro _; rfl
      · intro _; rfl

theorem restart_eq_invalid (env : ControlEnv) (runner : Runner) (script : String)
    (c : Char) (h : validate_path_err runner.path = some c) :
    restart_runner_process env runner script =
      (.error (.msg ("Invalid path: contains shell metacharacter " ++ c.toString)), []) := by
  unfold restart_runner_process
  rw [h]

theorem restart_eq_timeout (env : ControlEnv) (runner : Runner) (script : String)
    (hne : validate_path_err runner.path = none)
    (hnone : (restart_polls env.runningAt 0).2 = none) :
    restart_runner_process env runner script =
      (.error (.msg (restart_timeout_message runner)),
       .terminate :: (restart_polls env.runningAt 0).1) := by
  unfold restart_runner_process
  rw [hne, hnone]
  rfl

theorem restart_eq_ok (env : ControlEnv) (runner : Runner) (script : String) (j : Nat)
    (hne : validate_path_err runner.path = none)
    (hsome : (restart_polls env.runningAt 0).2 = some j)
    (hsp : env.spawnOk ⟨"nohup", [script]⟩ = true) :
    restart_runner_process env runner script =
      (.ok (), .terminate :: (restart_polls env.runningAt 0).1 ++ [.spawnProc]) := by
  unfold restart_runner_process
  rw [hne, hsome, if_neg (by simp), if_pos hsp]

theorem restart_eq_spawnfail (env : ControlEnv) (runner : Runner) (script : String) (j : Nat)
    (hne : validate_path_err runner.path = none)
    (hsome : (restart_polls env.runningAt 0).2 = some j)
    (hsp : env.spawnOk ⟨"nohup", [script]⟩ = false) :
    restart_runner_process env runner script =
      (.error (.ioerr (some ("Failed to restart runner " ++ runner.display_name))),
       .terminate :: (restart_polls env.runningAt 0).1 ++ [.spawnProc]) := by
  unfold restart_runner_process
  rw [hne, hsome, if_neg (by simp), if_neg (by rw [hsp]; decide)]

theorem restart_timeout_case (env : ControlEnv) (runner : Runner) (script : String)
    (hv : validate_path runner.path = true) (hall : ∀ j, env.runningAt j = true) :
    (restart_runner_process env runner script).1 =
      .error (.msg (restart_timeout_message runner)) ∧
    CtrlEvent.spawnProc ∉ (restart_runner_process env runner script).2 := by
  have hne : validate_path_err runner.path = none := by
    unfold validate_path at hv
    exact Option.isNone_iff_eq_none.mp hv
  obtain ⟨h1, _, h3⟩ := restart_polls_facts env.runningAt (51 - 0) 0 le_rfl
  rw [restart_eq_timeout env runner script hne (h3 hall)]
  refine ⟨rfl, fun hmem => ?_⟩
  rcases List.mem_cons.mp hmem with h | h
  · exact absurd h (by simp)
  · exact h1 h

theorem restart_ok_case (env : ControlEnv) (runner : Runner) (script : String)
    (hok : (restart_runner_process env runner script).1 = .ok ()) :
    ∃ j, env.runningAt j = false ∧
      CtrlEvent.poll j ∈ (restart_runner_process env runner script).2 ∧
      (restart_runner_process env runner script).2.getLast? = some CtrlEvent.spawnProc := by
  obtain ⟨_, h2, _⟩ := restart_polls_facts env.runningAt (51 - 0) 0 le_rfl
  cases hval : validate_path_err runner.path with
  | some c =>
    rw [restart_eq_invalid env runner script c hval] at hok
    simp at hok
  | none =>
    cases hiso : (restart_polls env.runningAt 0).2 with
    | none =>
      rw [restart_eq_timeout env runner script hval hiso] at hok
      simp at hok
    | some j =>
      cases hsp : env.spawnOk ⟨"nohup", [script]⟩ with
      | false =>
        rw [restart_eq_spawnfail env runner script j hval hiso hsp] at hok
        simp at hok
      | true =>
        rw [restart_eq_ok env runner script j hval hiso hsp]
        obtain ⟨hfj, hmem⟩ := h2 j hiso
        refine ⟨j, hfj, ?_, ?_⟩
        · exact List.mem_cons_of_mem _ (List.mem_append_left _ hmem)
        · show (CtrlEvent.terminate :: ((restart_polls env.runningAt 0).1 ++
            [CtrlEvent.spawnProc])).getLast? = some CtrlEvent.spawnProc
          rw [← List.cons_append]
          exact List.getLast?_concat _

theorem handle_control_output_ne_timeout (out : ProcessOutput) (action : String)
    (r2 r : Runner) :
    handle_control_output out action r2 ≠ .error (.msg (restart_timeout_message r)) := by
  unfold handle_control_output
  split
  · exact fun h => Except.noConfusion h
  · intro h
    injection h with h1
    injection h1 with h2
    exact string_ne_of_head _ _ 'F' 'T' (failed_message_head action r2.display_name out.stderr)
      (restart_timeout_message_head r) (by decide) h2

/-- C6: whenever tier-3 restart spawns, the terminate signal is the first
event issued; if the process never stops showing as alive, restart returns
the distinct Timeout message error and no spawn event appears in the
trace; a successful restart spawned only after some poll observed the
process gone, with the spawn as the final event; and the timeout error is
distinct both from the I/O-backed spawn-failure variant and from every
exit-code failure produced by `handle_control_output`. -/
theorem c6_restart_tier3 (env : ControlEnv) (runner : Runner) (script : String) :
    (CtrlEvent.spawnProc ∈ (restart_runner_process env runner script).2 →
      (restart_runner_process env runner script).2.head? = some CtrlEvent.terminate)
    ∧ (validate_path runner.path = true → (∀ j, env.runningAt j = true) →
        (restart_runner_process env runner script).1 =
          .error (.msg (restart_timeout_message runner)) ∧
        CtrlEvent.spawnProc ∉ (restart_runner_process env runner script).2)
    ∧ ((restart_runner_process env runner script).1 = .ok () →
        ∃ j, env.runningAt j = false ∧
          CtrlEvent.poll j ∈ (restart_runner_process env runner script).2 ∧
          (restart_runner_process env runner script).2.getLast? = some CtrlEvent.spawnProc)
    ∧ (∀ ctx, CtrlError.msg (restart_timeout_message runner) ≠ CtrlError.ioerr ctx)
    ∧ (∀ out action r2, handle_control_output out action r2 ≠
        .error (.msg (restart_timeout_message runner))) :=
  ⟨restart_trace_head env runner script,
   fun hv hall => restart_timeout_case env runner script hv hall,
   restart_ok_case env runner script,
   fun _ h => CtrlError.noConfusion h,
   fun out action r2 => handle_control_output_ne_timeout out action r2 runner⟩

/-- Witness for C6: with a liveness oracle that always reports running,
restart times out and never spawns. -/
theorem c6_restart_tier3_witness :
    (restart_runner_process ctrlEnvAlwaysRunning rr1 "s").1 =
      .error (.msg (restart_timeout_message rr1)) ∧
    CtrlEvent.spawnProc ∉ (restart_runner_process ctrlEnvAlwaysRunning rr1 "s").2 :=
  (c6_restart_tier3 ctrlEnvAlwaysRunning rr1 "s").2.1 rfl (fun _ => rfl)
